import Mathlib

/-!
Verification development for the MeGLighter delta-neutral trading bot
(`lighter_bot.py`).  The Python source is shallowly embedded: the retry loop
of `_make_request` becomes a recursion over the list of attempt indices, the
header construction becomes a pure function, the session engine
(`execute_delta_neutral_session`) becomes a function from an injected
environment (random draws and gateway outcomes) and a bot state to the next
bot state plus an order trace, and the daily scheduler becomes a function
producing the list of scheduler events.  Machine floats of the source are
modelled as exact rationals; the HMAC-SHA256 primitive from the Python
standard library is treated as an abstract function parameter.
-/

namespace LighterBot

/-! ## Request Executor: the retry loop of `_make_request` (lines 126-143)

The transport is abstracted as a function from the attempt index to what that
attempt observes: either an HTTP response (status plus parsed body) or a
transport-level failure (`aiohttp.ClientError` / `asyncio.TimeoutError`).
Response bodies and transport errors are abstracted as natural numbers. -/

/-- What a single attempt of the request loop observes from the transport. -/
inductive AttemptOutcome
  | response (status : Nat) (data : Nat)
  | failure (err : Nat)
deriving DecidableEq

/-- How `_make_request` terminates. `noneReturn` models the Python loop
falling through without an iteration (only possible when `max_retries = 0`),
in which case the function implicitly returns `None`. -/
inductive ReqResult
  | ok (data : Nat)
  | apiError (data : Nat)
  | transportError (err : Nat)
  | noneReturn
deriving DecidableEq

/-- The observable behaviour of one call of `_make_request`: final result,
number of attempts performed, and the list of back-off sleeps in order. -/
structure ReqTrace where
  result : ReqResult
  attempts : Nat
  sleeps : List Nat
deriving DecidableEq

/-- The body of `for attempt in range(max_retries)` of `_make_request`,
recursing over the remaining attempt indices.  On a response with status
other than 200 it raises an API error immediately; on a transport failure it
re-raises if this was the last attempt (`attempt == max_retries - 1`) and
otherwise sleeps `2 ** attempt` and retries. -/
def attemptLoop (transport : Nat → AttemptOutcome) (max_retries : Nat) :
    List Nat → ReqTrace
  | [] => ⟨ReqResult.noneReturn, 0, []⟩
  | attempt :: rest =>
    match transport attempt with
    | AttemptOutcome.response status data =>
      if status ≠ 200 then ⟨ReqResult.apiError data, 1, []⟩
      else ⟨ReqResult.ok data, 1, []⟩
    | AttemptOutcome.failure e =>
      if attempt = max_retries - 1 then ⟨ReqResult.transportError e, 1, []⟩
      else
        let t := attemptLoop transport max_retries rest
        ⟨t.result, t.attempts + 1, 2 ^ attempt :: t.sleeps⟩

/-- `_make_request` restricted to its retry behaviour: run the attempt loop
over `range(max_retries)`. -/
def make_request (transport : Nat → AttemptOutcome) (max_retries : Nat) :
    ReqTrace :=
  attemptLoop transport max_retries (List.range max_retries)

theorem attemptLoop_allFail (t : Nat → AttemptOutcome) (e m : Nat)
    (ht : ∀ i, t i = AttemptOutcome.failure e) :
    ∀ n s, 0 < n → s + n = m →
      attemptLoop t m (List.range' s n) =
        ⟨ReqResult.transportError e, n,
          (List.range' s (n - 1)).map fun i => 2 ^ i⟩ := by
  intro n
  induction n with
  | zero => intro s h; omega
  | succ n ih =>
    intro s _ hsm
    rw [List.range'_succ]
    by_cases hlast : s = m - 1
    · have hn : n = 0 := by omega
      subst hn
      subst hlast
      simp [attemptLoop, ht]
    · have hn : 0 < n := by omega
      simp only [attemptLoop, ht s, if_neg hlast]
      rw [ih (s + 1) hn (by omega)]
      have hr : List.range' s (n + 1 - 1) = s :: List.range' (s + 1) (n - 1) := by
        rw [Nat.succ_sub_one]
        conv_lhs => rw [show n = (n - 1) + 1 by omega]
        exact List.range'_succ s (n - 1) 1
      rw [hr, List.map_cons]

theorem attemptLoop_failThenOk (k d m : Nat) (errs : Nat → Nat) :
    ∀ n s, s + n = m → s ≤ k → k < m →
      (attemptLoop
          (fun i => if i < k then AttemptOutcome.failure (errs i)
                    else AttemptOutcome.response 200 d)
          m (List.range' s n)).result = ReqResult.ok d := by
  intro n
  induction n with
  | zero => intro s h1 h2 h3; omega
  | succ n ih
  =>
    intro s hsm hsk hkm
    rw [List.range'_succ]
    by_cases hs : s < k
    · have hne : s ≠ m - 1 := by omega
      simp only [attemptLoop, if_pos hs, if_neg hne]
      exact ih (s + 1) (by omega) (by omega) hkm
    · have hs' : s = k := by omega
      simp [attemptLoop, hs']

theorem attemptLoop_retried (u : Nat → AttemptOutcome) (m : Nat) :
    ∀ n s j, j + 1 < (attemptLoop u m (List.range' s n)).attempts →
      ∃ e, u (s + j) = AttemptOutcome.failure e := by
  intro n
  induction n with
  | zero => intro s j h; simp [attemptLoop] at h
  | succ n ih =>
    intro s j h
    rw [List.range'_succ] at h
    cases htc : u s with
    | response st da =>
      by_cases h200 : st = 200 <;> simp [attemptLoop, htc, h200] at h
    | failure e =>
      by_cases hlast : s = m - 1
      · subst hlast
        simp [attemptLoop, htc] at h
      · simp only [attemptLoop, htc, if_neg hlast] at h
        cases j with
        | zero => exact ⟨e, by simpa using htc⟩
        | succ j' =>
          obtain ⟨e', he'⟩ := ih (s + 1) j' (by omega)
          exact ⟨e', by rw [show s + (j' + 1) = (s + 1) + j' by omega]; exact he'⟩

/-- Claim C1: against a transport that fails transiently `k < max_retries`
times and then succeeds, `_make_request` returns the successful parsed
response; against a transport that fails transiently on every attempt, it
performs exactly `max_retries` attempts, sleeps `2 ^ n` time units before
retry attempt `n + 1` (`n` 0-indexed), and re-raises the original transport
error after the final attempt. -/
theorem claim_C1_retry (m k d e : Nat) (errs : Nat → Nat) (hk : k < m) :
    (make_request
        (fun i => if i < k then AttemptOutcome.failure (errs i)
                  else AttemptOutcome.response 200 d) m).result = ReqResult.ok d
    ∧ make_request (fun _ => AttemptOutcome.failure e) m =
        ⟨ReqResult.transportError e, m, (List.range (m - 1)).map fun n => 2 ^ n⟩ := by
  constructor
  · unfold make_request
    rw [List.range_eq_range']
    exact attemptLoop_failThenOk k d m errs m 0 (by omega) (by omega) hk
  · unfold make_request
    rw [List.range_eq_range', List.range_eq_range']
    exact attemptLoop_allFail _ e m (fun i => rfl) m 0 (by omega) (by omega)

/-- Witness for C1 at `max_retries = 3`, `k = 1`: the stub that fails once
then succeeds yields the parsed response `9`; the always-failing stub yields
3 attempts, sleeps `[1, 2]`, and re-raises the error `5`. -/
theorem claim_C1_witness :
    (make_request
        (fun i => if i < 1 then AttemptOutcome.failure (i + 50)
                  else AttemptOutcome.response 200 9) 3).result = ReqResult.ok 9
    ∧ make_request (fun _ => AttemptOutcome.failure 5) 3 =
        ⟨ReqResult.transportError 5, 3, [1, 2]⟩ := by
  have h := claim_C1_retry 3 1 9 5 (fun i => i + 50) (by omega)
  exact ⟨h.1, h.2.trans (by decide)⟩

/-- Claim C2: an HTTP response with a non-success (non-2xx) status makes
`_make_request` raise an API error immediately on that attempt, with no
further attempt and no back-off sleep; and on any transport, every attempt
that is followed by a further attempt observed a transport-level failure,
i.e. only transport failures are ever retried. -/
theorem claim_C2_api_error_not_retried (m s d : Nat) (t : Nat → AttemptOutcome)
    (hs : ¬ (200 ≤ s ∧ s < 300)) (hm : 0 < m)
    (ht : t 0 = AttemptOutcome.response s d) :
    make_request t m = ⟨ReqResult.apiError d, 1, []⟩
    ∧ ∀ (u : Nat → AttemptOutcome) (j : Nat),
        j + 1 < (make_request u m).attempts →
          ∃ e, u j = AttemptOutcome.failure e := by
  constructor
  · unfold make_request
    obtain ⟨m', rfl⟩ : ∃ m', m = m' + 1 := ⟨m - 1, by omega⟩
    rw [List.range_eq_range', List.range'_succ]
    have h200 : s ≠ 200 := by omega
    simp [attemptLoop, ht, h200]
  · intro u j hj
    unfold make_request at hj
    rw [List.range_eq_range'] at hj
    simpa using attemptLoop_retried u m m 0 j hj

/-- Witness for C2: a transport answering HTTP 404 with body `7` on the first
attempt makes `_make_request` (with `max_retries = 3`) raise the API error at
once: one attempt, no sleeps. -/
theorem claim_C2_witness :
    make_request (fun _ => AttemptOutcome.response 404 7) 3 =
      ⟨ReqResult.apiError 7, 1, []⟩ :=
  (claim_C2_api_error_not_retried 3 404 7 (fun _ => AttemptOutcome.response 404 7)
    (by omega) (by omega) rfl).1

/-! ## Signer and authentication headers (lines 94-124)

`hmacSha256Hex` abstracts `hmac.new(secret, payload, sha256).hexdigest()`
from the Python standard library; `_generate_signature` merely applies it.
Python's `str.startswith` is embedded as a character-list check. -/

/-- `endpoint.startswith(p)` of the source. -/
def startswith (s p : String) : Bool := p.data.isPrefixOf s.data

structure AccountConfig where
  account_name : String
  api_key : String
  secret_key : String
deriving DecidableEq

/-- `_generate_signature` (lines 94-100): HMAC-SHA256 hex digest of `payload`
under `secret_key`, with the primitive abstracted as `hmacSha256Hex`. -/
def generate_signature (hmacSha256Hex : String → String → String)
    (secret_key payload : String) : String :=
  hmacSha256Hex secret_key payload

/-- The header dictionary built by `_make_request` (lines 109-122): always
the account's API key and a content type; for endpoints not starting with
`"/public"`, additionally `X-NONCE` and the `X-SIGNATURE` over
`f"{nonce}{method}{endpoint}"`. -/
def requestHeaders (hmacSha256Hex : String → String → String)
    (acct : AccountConfig) (nonce : Nat) (method endpoint : String) :
    List (String × String) :=
  let headers := [("X-API-KEY", acct.api_key),
                  ("Content-Type", "application/json")]
  if ¬ startswith endpoint "/public" then
    headers ++
      [("X-NONCE", toString nonce),
       ("X-SIGNATURE",
         generate_signature hmacSha256Hex acct.secret_key
           (toString nonce ++ method ++ endpoint))]
  else headers

/-- Claim C6: requests on paths starting with the public path carry no nonce
and no signature header; on every other path they carry `X-NONCE` and an
`X-SIGNATURE` that is the hex HMAC-SHA256 of the string
nonce-method-path under the account's secret key; and the selected account's
`X-API-KEY` header is present on every request. -/
theorem claim_C6_auth_headers (hmacSha256Hex : String → String → String)
    (acct : AccountConfig) (nonce : Nat) (method endpoint : String) :
    ("X-API-KEY", acct.api_key) ∈
        requestHeaders hmacSha256Hex acct nonce method endpoint
    ∧ (startswith endpoint "/public" = true →
        ∀ v, ("X-NONCE", v) ∉ requestHeaders hmacSha256Hex acct nonce method endpoint
          ∧ ("X-SIGNATURE", v) ∉ requestHeaders hmacSha256Hex acct nonce method endpoint)
    ∧ (startswith endpoint "/public" = false →
        ("X-NONCE", toString nonce) ∈
            requestHeaders hmacSha256Hex acct nonce method endpoint
        ∧ ("X-SIGNATURE",
            hmacSha256Hex acct.secret_key (toString nonce ++ method ++ endpoint)) ∈
            requestHeaders hmacSha256Hex acct nonce method endpoint) := by
  refine ⟨?_, ?_, ?_⟩
  · by_cases hp : startswith endpoint "/public" <;> simp [requestHeaders, hp]
  · intro hp v
    simp [requestHeaders, hp]
  · intro hp
    simp [requestHeaders, generate_signature, hp]

/-- Witness for C6 on the private path `"/private/orders"` with a concrete
stand-in for the HMAC primitive. -/
theorem claim_C6_witness :
    ("X-API-KEY", "key1") ∈
        requestHeaders (fun s p => s ++ p) ⟨"Account1", "key1", "sec1"⟩ 17
          "POST" "/private/orders"
    ∧ ("X-NONCE", toString 17) ∈
        requestHeaders (fun s p => s ++ p) ⟨"Account1", "key1", "sec1"⟩ 17
          "POST" "/private/orders"
    ∧ ("X-SIGNATURE", "sec1" ++ (toString 17 ++ "POST" ++ "/private/orders")) ∈
        requestHeaders (fun s p => s ++ p) ⟨"Account1", "key1", "sec1"⟩ 17
          "POST" "/private/orders" := by
  have h := claim_C6_auth_headers (fun s p => s ++ p)
    ⟨"Account1", "key1", "sec1"⟩ 17 "POST" "/private/orders"
  exact ⟨h.1, (h.2.2 (by decide)).1, (h.2.2 (by decide)).2⟩

/-! ## Market/Order Gateway: `close_all_orders` (lines 182-197) and the
cleanup block of `execute_delta_neutral_session` (lines 316-321)

Gateway calls are abstracted as functions returning `Except`: a `.error`
models a raised exception (transport or API error escalating out of
`_make_request`), abstracted as a numeric code. -/

structure OrderRec where
  id : String
deriving DecidableEq

/-- The two gateway operations the cleanup path uses, abstracted per account
index and symbol / order id. -/
structure Gateway where
  get_open_orders : Nat → String → Except Nat (List OrderRec)
  cancel_order : Nat → String → Except Nat Unit

/-- `true` iff the `Except` is `.ok`; used to record the outcome of one
`cancel_order` call whose exception is swallowed by the inner
`try/except` of `close_all_orders`. -/
def exceptToBool {ε α : Type} : Except ε α → Bool
  | Except.ok _ => true
  | Except.error _ => false

/-- `close_all_orders` (lines 189-197): list the open orders for the symbol
(an exception here propagates), then attempt to cancel each one; a failed
cancellation is swallowed and the remaining orders are still attempted.  The
result records, per listed order, its id and whether its cancellation
succeeded. -/
def close_all_orders (g : Gateway) (account_index : Nat) (symbol : String) :
    Except Nat (List (String × Bool)) :=
  match g.get_open_orders account_index symbol with
  | Except.error e => Except.error e
  | Except.ok open_orders =>
    Except.ok (open_orders.map fun o =>
      (o.id, exceptToBool (g.cancel_order account_index o.id)))

/-- The cleanup block of `execute_delta_neutral_session` (lines 316-321):
one `try` around `close_all_orders(0, symbol)` followed by
`close_all_orders(1, symbol)`, whose exception is caught and logged.
Returns the list of account indices on which `close_all_orders` was invoked,
and the swallowed exception if any. -/
def sessionCleanup (g : Gateway) (symbol : String) : List Nat × Option Nat :=
  match close_all_orders g 0 symbol with
  | Except.error e => ([0], some e)
  | Except.ok _ =>
    match close_all_orders g 1 symbol with
    | Except.error e => ([0, 1], some e)
    | Except.ok _ => ([0, 1], none)

/-! ## Session Engine: `execute_delta_neutral_session` (lines 199-323)

The randomized draws (`random.choice`, `random.randint`, `random.uniform`,
`uuid`), clock readings and every gateway outcome the session consumes are
injected through a `SessionEnv`; the engine itself is then a pure function
on the bot state.  Prices, sizes and PnL are exact rationals in place of the
source's floats. -/

inductive OrderSide
  | buy
  | sell
deriving DecidableEq

inductive OrderType
  | limit
  | market
deriving DecidableEq

/-- The `Session` dataclass (lines 56-66). -/
structure Session where
  session_id : String
  symbol : String
  account1_long : Bool
  start_time : Nat
  planned_duration : Nat
  end_time : Option Nat := none
  account1_order_id : Option String := none
  account2_order_id : Option String := none
  closed : Bool := false
deriving DecidableEq

/-- The mutable bot fields the session engine and scheduler touch:
`self.sessions`, `self.active_session`, `self.is_running`. -/
structure BotState where
  sessions : List Session
  active_session : Option Session
  is_running : Bool
deriving DecidableEq

/-- A successful `place_order` response; only the id is ever read. -/
structure OrderResp where
  id : String
deriving DecidableEq

/-- One `place_order` call as issued by the engine: account index, symbol,
side, order type and quantity. -/
structure OrderCmd where
  account : Nat
  symbol : String
  side : OrderSide
  type : OrderType
  quantity : ℚ
deriving DecidableEq

/-- An exception caught by the session's `try/except`: either one injected
through the environment (gateway/parse failure, code as `Nat`), or the
`ZeroDivisionError` of the PnL computation at opening price 0. -/
inductive SessionErr
  | env (e : Nat)
  | zeroDiv
deriving DecidableEq

/-- How one run of `execute_delta_neutral_session` ends: settled with the
computed PnL triple (account1, account2, total), failed with the caught
exception, or refused because a session was already active. -/
inductive SessionOutcome
  | settled (pnl1 pnl2 total : ℚ)
  | failed (e : SessionErr)
  | refusedActive
deriving DecidableEq

/-- The injected environment of one session run: the random draws taken
before the `try` block, the clock values, and the outcome of each gateway
call in program order. -/
structure SessionEnv where
  symbol : String
  account1_long : Bool
  duration : Nat
  session_id : String
  position_size : ℚ
  start_time : Nat
  end_time : Nat
  open_price : Except Nat ℚ
  place_open1 : Except Nat OrderResp
  place_open2 : Except Nat OrderResp
  place_close1 : Except Nat OrderResp
  place_close2 : Except Nat OrderResp
  close_price : Except Nat ℚ
  cleanup_gateway : Gateway

/-- The `Session` object created at lines 217-223. -/
def initSession (env : SessionEnv) : Session :=
  { session_id := env.session_id
    symbol := env.symbol
    account1_long := env.account1_long
    start_time := env.start_time
    planned_duration := env.duration }

/-- The `try` block of `execute_delta_neutral_session` (lines 232-312):
fetch the opening price, place the two opening orders (first-leg failure
aborts before the second leg), record the order ids on the session, hold,
place the two closing orders, set `end_time` and `closed`, fetch the closing
price and compute the PnL.  Returns the session object as mutated so far,
the trace of `place_order` calls issued, and the outcome. -/
def sessionBody (env : SessionEnv) (s0 : Session) :
    Session × List OrderCmd × SessionOutcome :=
  match env.open_price with
  | Except.error e => (s0, [], SessionOutcome.failed (SessionErr.env e))
  | Except.ok current_price =>
    let position_size := env.position_size
    let openCmd1 : OrderCmd :=
      ⟨0, s0.symbol, if s0.account1_long then OrderSide.buy else OrderSide.sell,
        OrderType.market, position_size⟩
    match env.place_open1 with
    | Except.error e => (s0, [openCmd1], SessionOutcome.failed (SessionErr.env e))
    | Except.ok order1 =>
      let openCmd2 : OrderCmd :=
        ⟨1, s0.symbol, if s0.account1_long then OrderSide.sell else OrderSide.buy,
          OrderType.market, position_size⟩
      match env.place_open2 with
      | Except.error e =>
        (s0, [openCmd1, openCmd2], SessionOutcome.failed (SessionErr.env e))
      | Except.ok order2 =>
        let s1 := { s0 with
          account1_order_id := some order1.id
          account2_order_id := some order2.id }
        let closeCmd1 : OrderCmd :=
          ⟨0, s0.symbol, if s0.account1_long then OrderSide.sell else OrderSide.buy,
            OrderType.market, position_size⟩
        match env.place_close1 with
        | Except.error e =>
          (s1, [openCmd1, openCmd2, closeCmd1],
            SessionOutcome.failed (SessionErr.env e))
        | Except.ok _ =>
          let closeCmd2 : OrderCmd :=
            ⟨1, s0.symbol, if s0.account1_long then OrderSide.buy else OrderSide.sell,
              OrderType.market, position_size⟩
          match env.place_close2 with
          | Except.error e =>
            (s1, [openCmd1, openCmd2, closeCmd1, closeCmd2],
              SessionOutcome.failed (SessionErr.env e))
          | Except.ok _ =>
            let s2 := { s1 with end_time := some env.end_time, closed := true }
            match env.close_price with
            | Except.error e =>
              (s2, [openCmd1, openCmd2, closeCmd1, closeCmd2],
                SessionOutcome.failed (SessionErr.env e))
            | Except.ok closing_price =>
              if current_price = 0 then
                (s2, [openCmd1, openCmd2, closeCmd1, closeCmd2],
                  SessionOutcome.failed SessionErr.zeroDiv)
              else
                let price_change_pct := (closing_price - current_price) / current_price
                let account1_pnl :=
                  if s0.account1_long then position_size * price_change_pct
                  else -(position_size * price_change_pct)
                let account2_pnl :=
                  if s0.account1_long then -(position_size * price_change_pct)
                  else position_size * price_change_pct
                (s2, [openCmd1, openCmd2, closeCmd1, closeCmd2],
                  SessionOutcome.settled account1_pnl account2_pnl
                    (account1_pnl + account2_pnl))

/-- `execute_delta_neutral_session` (lines 199-323) as a state transformer:
refuse when a session is already active (lines 201-203); otherwise create
the session, set it active and append it to the history (lines 225-226), run
the `try` block, run the cleanup block when it failed, and finally clear the
active slot (line 323).  Returns the next bot state, the order trace, the
accounts on which cleanup invoked `close_all_orders`, and the outcome.  The
session object is shared between the history list and the active slot in the
source, so the history holds the finally-mutated object. -/
def execute_delta_neutral_session (env : SessionEnv) (st : BotState) :
    BotState × List OrderCmd × List Nat × SessionOutcome :=
  match st.active_session with
  | some _ => (st, [], [], SessionOutcome.refusedActive)
  | none =>
    let r := sessionBody env (initSession env)
    let cleanup : List Nat :=
      match r.2.2 with
      | SessionOutcome.failed _ => (sessionCleanup env.cleanup_gateway env.symbol).1
      | _ => []
    ({ st with sessions := st.sessions ++ [r.1], active_session := none },
      r.2.1, cleanup, r.2.2)

/-! ## Concrete fixtures used by counterexamples and witnesses -/

/-- A gateway with no open orders and always-succeeding cancellations. -/
def emptyGateway : Gateway :=
  { get_open_orders := fun _ _ => Except.ok []
    cancel_order := fun _ _ => Except.ok () }

/-- A gateway whose open-orders listing fails for account 0 but succeeds
(with one open order) for account 1. -/
def gatewayListFail0 : Gateway :=
  { get_open_orders := fun a _ =>
      if a = 0 then Except.error 5 else Except.ok [⟨"x1"⟩]
    cancel_order := fun _ _ => Except.ok () }

/-- The bot state right after `run_daily_cycle` starts: empty history, no
active session, running. -/
def initialState : BotState :=
  { sessions := [], active_session := none, is_running := true }

/-- An environment in which every gateway call succeeds: opening price 2000,
closing price 2010, account 1 long, size `0.05`. -/
def envAllOk : SessionEnv :=
  { symbol := "ETH-USDC"
    account1_long := true
    duration := 300
    session_id := "abc12345"
    position_size := 1/20
    start_time := 0
    end_time := 300
    open_price := Except.ok 2000
    place_open1 := Except.ok ⟨"o1"⟩
    place_open2 := Except.ok ⟨"o2"⟩
    place_close1 := Except.ok ⟨"c1"⟩
    place_close2 := Except.ok ⟨"c2"⟩
    close_price := Except.ok 2010
    cleanup_gateway := emptyGateway }

/-- Like `envAllOk` but the opening market-data fetch raises (code 1). -/
def envFailOpen : SessionEnv :=
  { envAllOk with open_price := Except.error 1 }

/-- Like `envFailOpen` but cleanup runs against `gatewayListFail0`. -/
def envFailOpenBadCleanup : SessionEnv :=
  { envFailOpen with cleanup_gateway := gatewayListFail0 }

/-! ## Claim C3: independence of the two cleanup calls -/

/-- Counterexample to claim C3: the session whose opening fetch raises is
`Failed`, and because account 0's `close_all_orders` itself raises (its
open-orders listing fails), cleanup is attempted only on account 0 — even
though account 1's listing would have succeeded.  The two cleanup calls sit
in a single `try` block, so they are not independent. -/
theorem claim_C3_counterexample :
    (execute_delta_neutral_session envFailOpenBadCleanup initialState).2.2.2 =
        SessionOutcome.failed (SessionErr.env 1)
    ∧ (execute_delta_neutral_session envFailOpenBadCleanup initialState).2.2.1 = [0]
    ∧ gatewayListFail0.get_open_orders 1 "ETH-USDC" = Except.ok [⟨"x1"⟩] :=
  ⟨rfl, rfl, rfl⟩

/-- Claim C3 as amended: for every session that fails, the engine invokes
`close_all_orders` for the session's symbol on account 0 and then on account
1 inside one exception guard; per-order cancellation failures are swallowed
inside `close_all_orders`, so they abort neither the remaining cancellations
nor account 1's cleanup, but if account 0's `close_all_orders` raises (e.g.
a failed open-orders listing) the cleanup attempt on account 1 is skipped. -/
theorem claim_C3_cleanup_amended (env : SessionEnv) (st : BotState)
    (e : SessionErr)
    (h : (execute_delta_neutral_session env st).2.2.2 = SessionOutcome.failed e) :
    (execute_delta_neutral_session env st).2.2.1 =
        (sessionCleanup env.cleanup_gateway env.symbol).1
    ∧ (∀ r, close_all_orders env.cleanup_gateway 0 env.symbol = Except.ok r →
        (sessionCleanup env.cleanup_gateway env.symbol).1 = [0, 1])
    ∧ (∀ er, close_all_orders env.cleanup_gateway 0 env.symbol = Except.error er →
        (sessionCleanup env.cleanup_gateway env.symbol).1 = [0])
    ∧ (∀ a l, env.cleanup_gateway.get_open_orders a env.symbol = Except.ok l →
        close_all_orders env.cleanup_gateway a env.symbol =
          Except.ok (l.map fun o =>
            (o.id, exceptToBool (env.cleanup_gateway.cancel_order a o.id)))) := by
  refine ⟨?_, ?_, ?_, ?_⟩
  · rcases hst : st.active_session with _ | s
    · simp only [execute_delta_neutral_session, hst] at h ⊢
      rw [h]
    · simp only [execute_delta_neutral_session, hst] at h
      exact SessionOutcome.noConfusion h
  · intro r hr
    rcases h1 : close_all_orders env.cleanup_gateway 1 env.symbol with e1 | r1 <;>
      simp [sessionCleanup, hr, h1]
  · intro er her
    simp [sessionCleanup, her]
  · intro a l hl
    simp [close_all_orders, hl]

/-- Witness for the amended C3: in the failing session with the all-ok
cleanup gateway, cleanup is attempted on both accounts in order. -/
theorem claim_C3_witness :
    (execute_delta_neutral_session envFailOpen initialState).2.2.1 = [0, 1] := by
  have h := claim_C3_cleanup_amended envFailOpen initialState (SessionErr.env 1) rfl
  exact h.1.trans (h.2.1 [] rfl)

/-! ## Claim C5: when sessions enter the history list -/

/-- Counterexample to claim C5: the session whose opening market-data fetch
raises ends `Failed`, yet it appears in the session history — appended at
session start — with `closed = false` and no `end_time`. -/
theorem claim_C5_counterexample :
    (execute_delta_neutral_session envFailOpen initialState).1.sessions =
      [{ session_id := "abc12345", symbol := "ETH-USDC", account1_long := true,
         start_time := 0, planned_duration := 300, end_time := none,
         account1_order_id := none, account2_order_id := none, closed := false }]
    ∧ (execute_delta_neutral_session envFailOpen initialState).2.2.2 =
        SessionOutcome.failed (SessionErr.env 1) :=
  ⟨rfl, rfl⟩

/-- Claim C5 as amended: the session object is appended to the history at
session start, before any order is placed, so failed sessions appear in the
history too (with `closed`/`end_time` reflecting how far they got); since
the history shares the mutated object, a session that reaches `Settled` is
recorded with `closed = true` and its `end_time` set. -/
theorem claim_C5_history_amended (env : SessionEnv) (st : BotState)
    (h : st.active_session = none) :
    (execute_delta_neutral_session env st).1.sessions =
        st.sessions ++ [(sessionBody env (initSession env)).1]
    ∧ (∀ p1 p2 pt,
        (execute_delta_neutral_session env st).2.2.2 =
            SessionOutcome.settled p1 p2 pt →
          (sessionBody env (initSession env)).1.closed = true
          ∧ (sessionBody env (initSession env)).1.end_time = some env.end_time) := by
  constructor
  · simp [execute_delta_neutral_session, h]
  · intro p1 p2 pt hs
    simp only [execute_delta_neutral_session, h] at hs
    rcases hpo : env.open_price with e | po <;>
      simp only [sessionBody, hpo] at hs ⊢
    · exact SessionOutcome.noConfusion hs
    rcases h1 : env.place_open1 with e | o1 <;> simp only [h1] at hs ⊢
    · exact SessionOutcome.noConfusion hs
    rcases h2 : env.place_open2 with e | o2 <;> simp only [h2] at hs ⊢
    · exact SessionOutcome.noConfusion hs
    rcases h3 : env.place_close1 with e | o3 <;> simp only [h3] at hs ⊢
    · exact SessionOutcome.noConfusion hs
    rcases h4 : env.place_close2 with e | o4 <;> simp only [h4] at hs ⊢
    · exact SessionOutcome.noConfusion hs
    rcases h5 : env.close_price with e | pc <;> simp only [h5] at hs ⊢
    · exact SessionOutcome.noConfusion hs
    by_cases hz : po = 0
    · rw [if_pos hz] at hs
      exact SessionOutcome.noConfusion hs
    · constructor <;> simp [hz]

/-- Witness for the amended C5: the all-ok session is appended to the empty
history as the mutated session object. -/
theorem claim_C5_witness :
    (execute_delta_neutral_session envAllOk initialState).1.sessions =
      initialState.sessions ++ [(sessionBody envAllOk (initSession envAllOk)).1] :=
  (claim_C5_history_amended envAllOk initialState rfl).1

/-! ## Claim C7: the single-active-session invariant -/

/-- Claim C7: `execute_delta_neutral_session` refuses to start when a
session is already active — returning with no order placed, no cleanup call
and the state unchanged — and whenever it does start (no active session),
the active-session slot is `none` again when it returns, whatever the
outcome. -/
theorem claim_C7_single_active (env : SessionEnv) (st : BotState) :
    (∀ s, st.active_session = some s →
        execute_delta_neutral_session env st =
          (st, [], [], SessionOutcome.refusedActive))
    ∧ (st.active_session = none →
        (execute_delta_neutral_session env st).1.active_session = none) := by
  constructor
  · intro s hs
    simp [execute_delta_neutral_session, hs]
  · intro hn
    simp [execute_delta_neutral_session, hn]

/-- Witness for C7: with an already-active session the call is a no-op, and
from the idle state the active slot is cleared again after a full run. -/
theorem claim_C7_witness :
    execute_delta_neutral_session envAllOk
        { sessions := [], active_session := some (initSession envAllOk),
          is_running := true } =
      ({ sessions := [], active_session := some (initSession envAllOk),
          is_running := true }, [], [], SessionOutcome.refusedActive) :=
  (claim_C7_single_active envAllOk
    { sessions := [], active_session := some (initSession envAllOk),
      is_running := true }).1 (initSession envAllOk) rfl

/-! ## Claim C8: order pairs of a settled session -/

/-- Claim C8: every session that reaches `Settled` issued exactly four
market orders on the session's symbol with the session's size — an opening
pair (account 0 then account 1) with strictly opposite sides in which the
long account buys and the short account sells, followed by a closing pair
with those sides exactly reversed. -/
theorem claim_C8_order_pairs (env : SessionEnv) (st : BotState) (p1 p2 pt : ℚ)
    (h : (execute_delta_neutral_session env st).2.2.2 =
        SessionOutcome.settled p1 p2 pt) :
    (execute_delta_neutral_session env st).2.1 =
      if env.account1_long then
        [⟨0, env.symbol, OrderSide.buy, OrderType.market, env.position_size⟩,
         ⟨1, env.symbol, OrderSide.sell, OrderType.market, env.position_size⟩,
         ⟨0, env.symbol, OrderSide.sell, OrderType.market, env.position_size⟩,
         ⟨1, env.symbol, OrderSide.buy, OrderType.market, env.position_size⟩]
      else
        [⟨0, env.symbol, OrderSide.sell, OrderType.market, env.position_size⟩,
         ⟨1, env.symbol, OrderSide.buy, OrderType.market, env.position_size⟩,
         ⟨0, env.symbol, OrderSide.buy, OrderType.market, env.position_size⟩,
         ⟨1, env.symbol, OrderSide.sell, OrderType.market, env.position_size⟩] := by
  rcases hst : st.active_session with _ | s
  · simp only [execute_delta_neutral_session, hst] at h ⊢
    rcases hpo : env.open_price with e | po <;>
      simp only [sessionBody, hpo] at h ⊢
    · exact SessionOutcome.noConfusion h
    rcases h1 : env.place_open1 with e | o1 <;> simp only [h1] at h ⊢
    · exact SessionOutcome.noConfusion h
    rcases h2 : env.place_open2 with e | o2 <;> simp only [h2] at h ⊢
    · exact SessionOutcome.noConfusion h
    rcases h3 : env.place_close1 with e | o3 <;> simp only [h3] at h ⊢
    · exact SessionOutcome.noConfusion h
    rcases h4 : env.place_close2 with e | o4 <;> simp only [h4] at h ⊢
    · exact SessionOutcome.noConfusion h
    rcases h5 : env.close_price with e | pc <;> simp only [h5] at h ⊢
    · exact SessionOutcome.noConfusion h
    by_cases hz : po = 0
    · rw [if_pos hz] at h
      exact SessionOutcome.noConfusion h
    · cases hl : env.account1_long <;> simp [initSession, hz, hl]
  · simp only [execute_delta_neutral_session, hst] at h
    exact SessionOutcome.noConfusion h

/-- Witness for C8: in the all-ok session (account 1 long) the trace is
buy/sell then sell/buy, all market orders of size `0.05` on `"ETH-USDC"`. -/
theorem claim_C8_witness :
    (execute_delta_neutral_session envAllOk initialState).2.1 =
      [⟨0, "ETH-USDC", OrderSide.buy, OrderType.market, 1/20⟩,
       ⟨1, "ETH-USDC", OrderSide.sell, OrderType.market, 1/20⟩,
       ⟨0, "ETH-USDC", OrderSide.sell, OrderType.market, 1/20⟩,
       ⟨1, "ETH-USDC", OrderSide.buy, OrderType.market, 1/20⟩] := by
  have h := claim_C8_order_pairs envAllOk initialState
    ((1 : ℚ)/20 * (((2010 : ℚ) - 2000) / 2000))
    (-((1 : ℚ)/20 * (((2010 : ℚ) - 2000) / 2000)))
    ((1 : ℚ)/20 * (((2010 : ℚ) - 2000) / 2000)
      + -((1 : ℚ)/20 * (((2010 : ℚ) - 2000) / 2000))) rfl
  simpa [envAllOk] using h

/-! ## Claim C10: the PnL computation of a settled session -/

/-- Claim C10: for every settled session the per-account PnL is
`size * (closing - open) / open`, positive for the long account and negated
for the short one, and the total PnL is their sum. -/
theorem claim_C10_pnl (env : SessionEnv) (st : BotState) (p1 p2 pt po pc : ℚ)
    (hpo : env.open_price = Except.ok po)
    (hpc : env.close_price = Except.ok pc)
    (h : (execute_delta_neutral_session env st).2.2.2 =
        SessionOutcome.settled p1 p2 pt) :
    p1 = (if env.account1_long then env.position_size * ((pc - po) / po)
          else -(env.position_size * ((pc - po) / po)))
    ∧ p2 = -p1
    ∧ pt = p1 + p2 := by
  rcases hst : st.active_session with _ | s
  · simp only [execute_delta_neutral_session, hst] at h
    simp only [sessionBody, hpo] at h
    rcases h1 : env.place_open1 with e | o1 <;> simp only [h1] at h
    · exact SessionOutcome.noConfusion h
    rcases h2 : env.place_open2 with e | o2 <;> simp only [h2] at h
    · exact SessionOutcome.noConfusion h
    rcases h3 : env.place_close1 with e | o3 <;> simp only [h3] at h
    · exact SessionOutcome.noConfusion h
    rcases h4 : env.place_close2 with e | o4 <;> simp only [h4] at h
    · exact SessionOutcome.noConfusion h
    simp only [hpc] at h
    by_cases hz : po = 0
    · rw [if_pos hz] at h
      exact SessionOutcome.noConfusion h
    · rw [if_neg hz] at h
      simp only [SessionOutcome.settled.injEq, initSession] at h
      obtain ⟨hp1, hp2, hpt⟩ := h
      subst hp1 hp2 hpt
      refine ⟨rfl, ?_, rfl⟩
      by_cases hl : env.account1_long <;> simp [hl]
  · simp only [execute_delta_neutral_session, hst] at h
    exact SessionOutcome.noConfusion h

/-- Witness for C10, the scenario of the spec: open 2000, close 2010,
account 1 long, size `0.05` — account 1's PnL is
`0.05 * 10 / 2000 = 0.00025`, account 2's its negation, total their sum,
which is 0. -/
theorem claim_C10_witness :
    ((1 : ℚ)/20 * (((2010 : ℚ) - 2000) / 2000) =
        (if envAllOk.account1_long then
          envAllOk.position_size * (((2010 : ℚ) - 2000) / 2000)
         else -(envAllOk.position_size * (((2010 : ℚ) - 2000) / 2000)))
      ∧ -((1 : ℚ)/20 * (((2010 : ℚ) - 2000) / 2000)) =
          -((1 : ℚ)/20 * (((2010 : ℚ) - 2000) / 2000))
      ∧ ((1 : ℚ)/20 * (((2010 : ℚ) - 2000) / 2000)
          + -((1 : ℚ)/20 * (((2010 : ℚ) - 2000) / 2000))) =
          (1 : ℚ)/20 * (((2010 : ℚ) - 2000) / 2000)
          + -((1 : ℚ)/20 * (((2010 : ℚ) - 2000) / 2000)))
    ∧ (1 : ℚ)/20 * (((2010 : ℚ) - 2000) / 2000) = 1/4000
    ∧ (1 : ℚ)/20 * (((2010 : ℚ) - 2000) / 2000)
        + -((1 : ℚ)/20 * (((2010 : ℚ) - 2000) / 2000)) = 0 :=
  ⟨claim_C10_pnl envAllOk initialState
      ((1 : ℚ)/20 * (((2010 : ℚ) - 2000) / 2000))
      (-((1 : ℚ)/20 * (((2010 : ℚ) - 2000) / 2000)))
      ((1 : ℚ)/20 * (((2010 : ℚ) - 2000) / 2000)
        + -((1 : ℚ)/20 * (((2010 : ℚ) - 2000) / 2000)))
      2000 2010 rfl rfl rfl,
    by norm_num, by norm_num⟩

/-! ## Daily Scheduler: `run_daily_cycle` (lines 325-357)

The loop `for session_num in range(daily_sessions)` checks `is_running` at
the top of each iteration, runs one session (failures caught per slot), and
then always sleeps the randomized inter-session delay before the next check.
`running i` injects the value of `is_running` observed at the check of slot
`i`; `delay i` injects the value drawn by `random.uniform` after slot `i`.
The run is recorded as its list of events. -/

/-- One scheduler event: a session slot executed, or an inter-session sleep
of the given drawn delay. -/
inductive SchedEv
  | sessionSlot (i : Nat)
  | interDelay (d : ℚ)
deriving DecidableEq

/-- The scheduler loop over the remaining slot indices: stop when
`is_running` is observed false, otherwise run the slot and then sleep the
inter-session delay. -/
def cycleSlots (running : Nat → Bool) (delay : Nat → ℚ) : List Nat → List SchedEv
  | [] => []
  | i :: rest =>
    if running i then
      SchedEv.sessionSlot i :: SchedEv.interDelay (delay i) ::
        cycleSlots running delay rest
    else []

/-- `run_daily_cycle` restricted to its loop structure: iterate the slots
`0, …, daily_sessions - 1`. -/
def run_daily_cycle (running : Nat → Bool) (delay : Nat → ℚ)
    (daily_sessions : Nat) : List SchedEv :=
  cycleSlots running delay (List.range daily_sessions)

theorem cycleSlots_session_mem (running : Nat → Bool) (delay : Nat → ℚ) (i : Nat) :
    ∀ l : List Nat, SchedEv.sessionSlot i ∈ cycleSlots running delay l →
      running i = true := by
  intro l
  induction l with
  | nil => simp [cycleSlots]
  | cons a rest ih =>
    by_cases hr : running a
    · simp only [cycleSlots, if_pos hr, List.mem_cons]
      rintro (h | h | h)
      · cases h; exact hr
      · exact SchedEv.noConfusion h
      · exact ih h
    · simp [cycleSlots, hr]

theorem cycleSlots_delay_follows (running : Nat → Bool) (delay : Nat → ℚ) (i : Nat) :
    ∀ l : List Nat, SchedEv.sessionSlot i ∈ cycleSlots running delay l →
      SchedEv.interDelay (delay i) ∈ cycleSlots running delay l := by
  intro l
  induction l with
  | nil => simp [cycleSlots]
  | cons a rest ih =>
    by_cases hr : running a
    · simp only [cycleSlots, if_pos hr, List.mem_cons]
      rintro (h | h | h)
      · cases h
        exact Or.inr (Or.inl rfl)
      · exact SchedEv.noConfusion h
      · exact Or.inr (Or.inr (ih h))
    · simp [cycleSlots, hr]

/-- Counterexample to claim C4: with two scheduled slots and a stop
requested during slot 0 (so `is_running` is observed false from the check of
slot 1 on), the loop still sleeps the full inter-session delay after slot 0
before exiting — the trace is slot 0 followed by its delay, not slot 0
alone as an immediate exit would give. -/
theorem claim_C4_counterexample :
    run_daily_cycle (fun i => decide (i = 0)) (fun _ => 100) 2 =
      [SchedEv.sessionSlot 0, SchedEv.interDelay 100]
    ∧ SchedEv.interDelay 100 ∈
        run_daily_cycle (fun i => decide (i = 0)) (fun _ => 100) 2 :=
  ⟨rfl, List.Mem.tail _ (List.Mem.head _)⟩

/-- Claim C4 as amended: once a stop has been requested (so `is_running`
stays false from check `k` on), no further session slot is started — the
flag is checked at the top of each slot — but the loop does not exit until
that next top-of-loop check: the inter-session delay drawn after each
executed slot, including the last one before the stop is observed, is still
waited out in full. -/
theorem claim_C4_stop_amended (running : Nat → Bool) (delay : Nat → ℚ)
    (n k : Nat) (hstop : ∀ j, k ≤ j → running j = false) :
    (∀ i, k ≤ i → SchedEv.sessionSlot i ∉ run_daily_cycle running delay n)
    ∧ (∀ i, SchedEv.sessionSlot i ∈ run_daily_cycle running delay n →
        SchedEv.interDelay (delay i) ∈ run_daily_cycle running delay n) := by
  constructor
  · intro i hi hmem
    have := cycleSlots_session_mem running delay i (List.range n) hmem
    rw [hstop i hi] at this
    exact Bool.noConfusion this
  · intro i hmem
    exact cycleSlots_delay_follows running delay i (List.range n) hmem

/-- Witness for the amended C4: with a stop observed from check 1 on, slot 1
is never started, and the delay after the executed slot 0 is waited out. -/
theorem claim_C4_witness :
    SchedEv.sessionSlot 1 ∉
        run_daily_cycle (fun i => decide (i = 0)) (fun _ => 100) 2
    ∧ SchedEv.interDelay 100 ∈
        run_daily_cycle (fun i => decide (i = 0)) (fun _ => 100) 2 := by
  have h := claim_C4_stop_amended (fun i => decide (i = 0)) (fun _ => 100) 2 1
    (fun j hj => by simp; omega)
  exact ⟨h.1 1 (le_refl 1), h.2 0 (by simp [run_daily_cycle, cycleSlots])⟩

/-! ## Claim C9: ranges of the randomized session parameters

`random.choice` / `random.randint` / `random.uniform` are injected as an
abstract random-number source carrying the contract of the Python `random`
module: `randint(a, b)` lands in `[a, b]` and `uniform(a, b)` lands in
`[a, b]` whenever `a ≤ b`. -/

/-- The `TradingConfig` dataclass (lines 40-54), restricted to the fields
the randomized parameter selection reads. -/
structure TradingConfig where
  max_retries : Nat
  min_session_duration : Nat
  max_session_duration : Nat
  min_daily_sessions : Nat
  max_daily_sessions : Nat
  max_position_size : ℚ
  symbols : List String

/-- The default configuration values of the source. -/
def defaultTradingConfig : TradingConfig :=
  { max_retries := 3
    min_session_duration := 300
    max_session_duration := 2100
    min_daily_sessions := 70
    max_daily_sessions := 180
    max_position_size := 1/10
    symbols := ["ETH-USDC", "BTC-USDC"] }

/-- An abstract random-number source with the contract of Python's
`random.randint` and `random.uniform`. -/
structure RNG where
  randint : Nat → Nat → Nat
  uniform : ℚ → ℚ → ℚ
  randint_mem : ∀ a b, a ≤ b → a ≤ randint a b ∧ randint a b ≤ b
  uniform_mem : ∀ a b, a ≤ b → a ≤ uniform a b ∧ uniform a b ≤ b

/-- The session-duration draw (lines 208-211). -/
def chooseDuration (rng : RNG) (cfg : TradingConfig) : Nat :=
  rng.randint cfg.min_session_duration cfg.max_session_duration

/-- The position-size draw (lines 238-241):
`random.uniform(max_position_size * 0.3, max_position_size)`. -/
def choosePositionSize (rng : RNG) (cfg : TradingConfig) : ℚ :=
  rng.uniform (cfg.max_position_size * (3/10)) cfg.max_position_size

/-- The daily-session-count draw (lines 330-333). -/
def chooseDailySessions (rng : RNG) (cfg : TradingConfig) : Nat :=
  rng.randint cfg.min_daily_sessions cfg.max_daily_sessions

/-- Claim C9: for every random-number source and every valid configuration
(ordered bounds, non-negative maximum position size), the drawn session
duration lies in `[min_session_duration, max_session_duration]`, the daily
session count lies in `[min_daily_sessions, max_daily_sessions]`, and the
drawn position size lies in `[0.3 * max_position_size, max_position_size]`. -/
theorem claim_C9_parameter_bounds (rng : RNG) (cfg : TradingConfig)
    (hdur : cfg.min_session_duration ≤ cfg.max_session_duration)
    (hday : cfg.min_daily_sessions ≤ cfg.max_daily_sessions)
    (hpos : 0 ≤ cfg.max_position_size) :
    (cfg.min_session_duration ≤ chooseDuration rng cfg
      ∧ chooseDuration rng cfg ≤ cfg.max_session_duration)
    ∧ (cfg.min_daily_sessions ≤ chooseDailySessions rng cfg
      ∧ chooseDailySessions rng cfg ≤ cfg.max_daily_sessions)
    ∧ (cfg.max_position_size * (3/10) ≤ choosePositionSize rng cfg
      ∧ choosePositionSize rng cfg ≤ cfg.max_position_size) := by
  refine ⟨rng.randint_mem _ _ hdur, rng.randint_mem _ _ hday, ?_⟩
  exact rng.uniform_mem _ _ (mul_le_of_le_one_right hpos (by norm_num))

/-- A concrete random-number source: always return the lower bound. -/
def constRNG : RNG :=
  { randint := fun a _ => a
    uniform := fun a _ => a
    randint_mem := fun a _ h => ⟨le_refl a, h⟩
    uniform_mem := fun a _ h => ⟨le_refl a, h⟩ }

/-- Witness for C9 at the lower-bound source and the default configuration. -/
theorem claim_C9_witness :
    (defaultTradingConfig.min_session_duration ≤
        chooseDuration constRNG defaultTradingConfig
      ∧ chooseDuration constRNG defaultTradingConfig ≤
        defaultTradingConfig.max_session_duration)
    ∧ (defaultTradingConfig.min_daily_sessions ≤
        chooseDailySessions constRNG defaultTradingConfig
      ∧ chooseDailySessions constRNG defaultTradingConfig ≤
        defaultTradingConfig.max_daily_sessions)
    ∧ (defaultTradingConfig.max_position_size * (3/10) ≤
        choosePositionSize constRNG defaultTradingConfig
      ∧ choosePositionSize constRNG defaultTradingConfig ≤
        defaultTradingConfig.max_position_size) :=
  claim_C9_parameter_bounds constRNG defaultTradingConfig
    (by norm_num [defaultTradingConfig])
    (by norm_num [defaultTradingConfig])
    (by norm_num [defaultTradingConfig])

end LighterBot
